import Mathlib

/-!
Verification of the MoneyDoothas financial-data core: a shallow embedding of
the MCP session client (`functions/mcp-client.js`) and of the five
normalization/aggregation transforms (`functions/utils.js`), with theorems
settling the specified behavior of each.

Modelling conventions.
JavaScript objects become Lean structures; a field that may be absent is an
`Option`.  Numeric leaf values that the source feeds to `parseFloat` are
modelled as already-parsed rationals (`Option Rat`): `none` covers both an
absent field and a value `parseFloat` turns into `NaN`, since both are sent
to `0` by the `|| 0` idiom of the source.  A thrown `TypeError` (reading a
property of `undefined`) is modelled by `Except JsErr`.  Locale display
formatting (`Intl.NumberFormat`, used only for `formatted...` fields) is an
external library and is omitted from the embedded records.
-/

/-- A runtime error thrown by the JavaScript code (a `TypeError` from
reading a property of `undefined`). -/
inductive JsErr where
  | typeError (msg : String)

deriving DecidableEq, Repr

/-- The `units`/`nanos`/`currencyCode` currency object consumed by
`currencyToNumber` in `functions/utils.js`. -/
structure CurrencyObj where
  currencyCode : Option String
  units : Option ℚ
  nanos : Option ℚ

deriving DecidableEq, Repr

/-- JavaScript truthiness of an optional numeric field: `undefined` and `0`
are falsy. -/
def jsFalsyNum (v : Option ℚ) : Bool :=
  match v with
  | none => true
  | some q => q == 0

/-- Embedding of `currencyToNumber` (utils.js lines 10-17):
`if (!currencyObj || !currencyObj.units) return 0;` then
`parseFloat(units) || 0` plus `(parseFloat(nanos) || 0) / 1e9`. -/
def currencyToNumber (currencyObj : Option CurrencyObj) : ℚ :=
  match currencyObj with
  | none => 0
  | some c =>
    if jsFalsyNum c.units then 0
    else (c.units.getD 0) + (c.nanos.getD 0) / 1000000000

/-- Embedding of `calculatePercentageChange` (utils.js lines 40-43). -/
def calculatePercentageChange (current previous : ℚ) : ℚ :=
  if previous = 0 then 0
  else ((current - previous) / previous) * 100

/-!
Embedding of the `MCPClient` class (`functions/mcp-client.js`).  The mutable
fields `sessionId` and `isAuthenticated` form the client state; each method
becomes a function from the state and the observed transport behavior to
the returned-or-thrown value, the successor state, and the list of transport
calls the method issued.  The two HTTP endpoints (the JSON-RPC stream URL
and the derived `/login` URL) are abstracted as tags; the axios transport is
modelled by its observable outcome, with the axios default that a non-2xx
HTTP status rejects the promise.  Thrown `Error` values are modelled by
their message strings, exactly the strings the source constructs.
-/

/-- The two HTTP endpoints the client talks to: the JSON-RPC stream URL and
the login URL derived from it. -/
inductive Endpoint where
  | rpc
  | login

deriving DecidableEq, Repr

/-- One transport call issued by a client method, tagged with the session
identifier the source attaches to it (the `MCP-Session-ID` header, or the
`sessionId` form field of the login POST); `none` when the stored session id
is `null`, or for the handshake request which sends no session id. -/
structure TransportCall where
  endpoint : Endpoint
  session : Option String

deriving DecidableEq, Repr

/-- The mutable state of an `MCPClient` instance: `this.sessionId` and
`this.isAuthenticated` (mcp-client.js constructor). -/
structure ClientState where
  sessionId : Option String
  isAuthenticated : Bool

deriving DecidableEq, Repr

/-- A freshly constructed client: `sessionId = null`,
`isAuthenticated = false`. -/
def MCPClient.new : ClientState :=
  { sessionId := none, isAuthenticated := false }

/-- Observable outcome of the handshake POST: axios rejects (network error
or non-2xx status), or resolves with the `mcp-session-id` response header
value (absent when the server sent none). -/
inductive InitTransport where
  | failure
  | success (sessionHeader : Option String)

deriving DecidableEq, Repr

/-- Embedding of `MCPClient.initialize` (mcp-client.js lines 13-51).  On a
resolved response the header value is assigned to `this.sessionId`
unconditionally (so a repeated call overwrites the old id); a missing
header then throws, and every failure is rethrown from the catch block as
the fixed message below.  The handshake request itself carries no session
id. -/
def initializeSession (st : ClientState) (tr : InitTransport) :
    Except String Unit × ClientState × List TransportCall :=
  match tr with
  | InitTransport.failure =>
    (Except.error "MCP initialization failed", st, [{ endpoint := Endpoint.rpc, session := none }])
  | InitTransport.success hdr =>
    match hdr with
    | none =>
      (Except.error "MCP initialization failed",
       { st with sessionId := none }, [{ endpoint := Endpoint.rpc, session := none }])
    | some sid =>
      (Except.ok (), { st with sessionId := some sid },
       [{ endpoint := Endpoint.rpc, session := none }])

/-- Observable outcome of the login POST: axios rejects with no HTTP
response (network failure), or the server answers with an HTTP status. -/
inductive AuthTransport where
  | failure
  | response (status : ℕ)

deriving DecidableEq, Repr

/-- Embedding of `MCPClient.authenticate` (mcp-client.js lines 56-77).
With no stored session id the method throws inside its `try` before any
network call; the catch block rethrows every failure as the fixed message
`MCP authentication failed`, so neither the missing-session condition nor
the observed HTTP status reaches the caller.  Axios resolves only for 2xx
statuses, and the source then additionally requires `status === 200` to
succeed; only success sets `isAuthenticated`. -/
def authenticate (st : ClientState) (phoneNumber : String) (tr : AuthTransport) :
    Except String Bool × ClientState × List TransportCall :=
  match st.sessionId with
  | none => (Except.error "MCP authentication failed", st, [])
  | some _ =>
    match tr with
    | AuthTransport.failure =>
      (Except.error "MCP authentication failed", st,
       [{ endpoint := Endpoint.login, session := st.sessionId }])
    | AuthTransport.response status =>
      if 200 ≤ status ∧ status < 300 then
        if status = 200 then
          (Except.ok true, { st with isAuthenticated := true },
           [{ endpoint := Endpoint.login, session := st.sessionId }])
        else
          (Except.error "MCP authentication failed", st,
           [{ endpoint := Endpoint.login, session := st.sessionId }])
      else
        (Except.error "MCP authentication failed", st,
         [{ endpoint := Endpoint.login, session := st.sessionId }])

/-- Observable outcome of the `tools/list` POST: axios rejects, or resolves
with `response.data.result` (opaque here). -/
inductive ListTransport where
  | failure
  | response (result : String)

deriving DecidableEq, Repr

/-- Embedding of `MCPClient.listTools` (mcp-client.js lines 82-105): one
POST carrying the stored session id in the `MCP-Session-ID` header, with no
state check and no state change. -/
def listTools (st : ClientState) (tr : ListTransport) :
    Except String String × ClientState × List TransportCall :=
  match tr with
  | ListTransport.failure =>
    (Except.error "Failed to list MCP tools", st,
     [{ endpoint := Endpoint.rpc, session := st.sessionId }])
  | ListTransport.response r =>
    (Except.ok r, st, [{ endpoint := Endpoint.rpc, session := st.sessionId }])

/-- One item of the `result.content` list of a tool-call response. -/
structure ContentItem where
  type : Option String
  text : Option String

deriving DecidableEq, Repr

/-- The `result` object of a tool-call response envelope: its optional
`content` list, plus the rest of the object kept opaque so that returning
it unchanged is meaningful. -/
structure ToolCallResult where
  content : Option (List ContentItem)
  payload : String

deriving DecidableEq, Repr

/-- The `error` member of a JSON-RPC response envelope. -/
structure RpcError where
  message : String

deriving DecidableEq, Repr

/-- A JSON-RPC response envelope: `response.data` with its optional `error`
and `result` members. -/
structure RpcEnvelope where
  error : Option RpcError
  result : Option ToolCallResult

deriving DecidableEq, Repr

/-- Observable outcome of the `tools/call` POST: axios rejects (carrying
the failure message the source interpolates), or resolves with an
envelope. -/
inductive CallTransport where
  | failure (msg : String)
  | response (envelope : RpcEnvelope)

deriving DecidableEq, Repr

/-- What `MCPClient.callTool` gives back to its caller: the JSON-parsed
content text, the raw `result` member unchanged (possibly `undefined`), or
a thrown error message. -/
inductive CallOutcome (α : Type) where
  | parsed (v : α)
  | raw (r : Option ToolCallResult)
  | failed (msg : String)

deriving DecidableEq, Repr

/-- Response handling of `MCPClient.callTool` (mcp-client.js lines
113-160): an `error` member in the envelope is thrown and rethrown with
the `MCP tool call failed:` prefix; otherwise, when the result has a
nonempty `content` list whose first item has `type === 'text'` and a
truthy `text`, that text is JSON-parsed (`parse` models `JSON.parse`,
`none` meaning a parse exception) and the parse failure falls back to the
raw result; every other shape returns the raw result unchanged. -/
def callToolHandle {α : Type} (tr : CallTransport) (parse : String → Option α) :
    CallOutcome α :=
  match tr with
  | CallTransport.failure msg => CallOutcome.failed ("MCP tool call failed: " ++ msg)
  | CallTransport.response env =>
    match env.error with
    | some e => CallOutcome.failed ("MCP tool call failed: " ++ e.message)
    | none =>
      match env.result with
      | none => CallOutcome.raw none
      | some result =>
        match result.content with
        | none => CallOutcome.raw (some result)
        | some [] => CallOutcome.raw (some result)
        | some (c :: _) =>
          match c.type, c.text with
          | some "text", some t =>
            if t = "" then CallOutcome.raw (some result)
            else
              match parse t with
              | some v => CallOutcome.parsed v
              | none => CallOutcome.raw (some result)
          | _, _ => CallOutcome.raw (some result)

/-- Embedding of `MCPClient.callTool` (mcp-client.js lines 113-160): the
method performs no session-state check, always issues exactly one POST
carrying the stored session id in the `MCP-Session-ID` header, never
mutates the client state, and maps the transport outcome through
`callToolHandle`. -/
def callTool {α : Type} (st : ClientState) (toolName : String) (tr : CallTransport)
    (parse : String → Option α) :
    CallOutcome α × ClientState × List TransportCall :=
  (callToolHandle tr parse, st, [{ endpoint := Endpoint.rpc, session := st.sessionId }])

/-- One client method invocation together with the transport behavior it
observed, for reasoning about arbitrary operation sequences. -/
inductive ClientOp where
  | initOp (tr : InitTransport)
  | authOp (phoneNumber : String) (tr : AuthTransport)
  | listToolsOp (tr : ListTransport)
  | callToolOp (toolName : String) (tr : CallTransport)

deriving DecidableEq, Repr

/-- State successor of one client operation. -/
def clientStep (st : ClientState) (op : ClientOp) : ClientState :=
  match op with
  | ClientOp.initOp tr => (initializeSession st tr).2.1
  | ClientOp.authOp p tr => (authenticate st p tr).2.1
  | ClientOp.listToolsOp tr => (listTools st tr).2.1
  | ClientOp.callToolOp n tr => (callTool st n tr (fun _ => (none : Option Unit))).2.1

/-- State after a sequence of client operations. -/
def runOps (st : ClientState) (ops : List ClientOp) : ClientState :=
  ops.foldl clientStep st

/-!
Embedding of the five normalizers of `functions/utils.js`.  Raw payloads are
the nested objects the remote tools return; each optional field is an
`Option`.  The JavaScript object used as a grouping accumulator (keyed by
scheme `isin` or bank name) is modelled as an association list updated in
place, with a missing identity key (`undefined` used as a property key)
modelled as the `none` key.  The branches of the source that read a
property of `undefined` (a scheme or bank record without `txns`, a first
credit report without `creditReportData`, a first `uanAccount` without
`rawDetails`) surface as `Except.error` with a `TypeError`.
-/

/-- JavaScript `str || dflt` for an optional string: absent and empty are
falsy. -/
def jsOrString (v : Option String) (dflt : String) : String :=
  match v with
  | none => dflt
  | some s => if s = "" then dflt else s

/-- One entry of `netWorthResponse.assetValues`. -/
structure AssetValue where
  netWorthAttribute : Option String
  value : Option CurrencyObj

deriving DecidableEq, Repr

/-- The `netWorthResponse` container. -/
structure NetWorthInner where
  totalNetWorthValue : Option CurrencyObj
  assetValues : Option (List AssetValue)

deriving DecidableEq, Repr

/-- The `mfSchemeAnalytics` container, whose `schemeAnalytics` list passes
through unnormalized (kept opaque). -/
structure MfSchemeAnalytics where
  schemeAnalytics : Option (List String)

deriving DecidableEq, Repr

/-- The `accountDetailsBulkResponse` container, whose `accountDetailsMap`
passes through unnormalized (kept opaque). -/
structure AccountDetailsBulk where
  accountDetailsMap : Option String

deriving DecidableEq, Repr

/-- A raw net-worth payload. -/
structure NetWorthPayload where
  netWorthResponse : Option NetWorthInner
  mfSchemeAnalytics : Option MfSchemeAnalytics
  accountDetailsBulkResponse : Option AccountDetailsBulk

deriving DecidableEq, Repr

/-- One normalized asset entry (the `formattedValue` display string is
omitted, see the module comment). -/
structure AssetRecord where
  type : Option String
  value : ℚ

deriving DecidableEq, Repr

/-- The normalized net-worth record.  In the no-data branch the source
omits the `mutualFunds`/`accountDetails` members; they are modelled as
empty/absent there.  The `|| \x7b\x7d` fallback of `accountDetails` is
collapsed into `none`. -/
structure NetWorthResult where
  totalNetWorth : ℚ
  currency : String
  assets : List AssetRecord
  mutualFunds : List String
  accountDetails : Option String
  error : Option String

deriving DecidableEq, Repr

/-- Embedding of `processNetWorthData` (utils.js lines 70-98).  This
normalizer has no throwing path: every inner read is guarded or
optional-chained. -/
def processNetWorthData (response : Option NetWorthPayload) : NetWorthResult :=
  match response with
  | none =>
    { totalNetWorth := 0, currency := "INR", assets := [], mutualFunds := [],
      accountDetails := none, error := some "No net worth data available" }
  | some resp =>
    match resp.netWorthResponse with
    | none =>
      { totalNetWorth := 0, currency := "INR", assets := [], mutualFunds := [],
        accountDetails := none, error := some "No net worth data available" }
    | some netWorthData =>
      { totalNetWorth := currencyToNumber netWorthData.totalNetWorthValue,
        currency := jsOrString (netWorthData.totalNetWorthValue.bind CurrencyObj.currencyCode) "INR",
        assets := (netWorthData.assetValues.getD []).map (fun asset =>
          { type := asset.netWorthAttribute, value := currencyToNumber asset.value }),
        mutualFunds := (resp.mfSchemeAnalytics.bind MfSchemeAnalytics.schemeAnalytics).getD [],
        accountDetails := resp.accountDetailsBulkResponse.bind AccountDetailsBulk.accountDetailsMap,
        error := none }

/-- The `score` container of a credit report. -/
structure CreditScore where
  bureauScore : Option ℤ

deriving DecidableEq, Repr

/-- One entry of `creditAccount.creditAccountDetails`. -/
structure CreditAccountDetail where
  identificationNumber : Option String
  subscriberName : Option String
  accountType : Option String
  creditLimitAmount : Option ℚ
  currentBalance : Option ℚ
  paymentRating : Option String
  accountStatus : Option String
  openDate : Option String

deriving DecidableEq, Repr

/-- The `account` counters of `creditAccountSummary`. -/
structure SummaryAccount where
  creditAccountTotal : Option ℚ
  creditAccountActive : Option ℚ

deriving DecidableEq, Repr

/-- The `creditAccountSummary` container; `totalOutstandingBalance` passes
through unnormalized (kept opaque, its `|| \x7b\x7d` fallback collapsed to
`none`). -/
structure CreditAccountSummary where
  account : Option SummaryAccount
  totalOutstandingBalance : Option String

deriving DecidableEq, Repr

/-- The `creditAccount` container. -/
structure CreditAccount where
  creditAccountDetails : Option (List CreditAccountDetail)
  creditAccountSummary : Option CreditAccountSummary

deriving DecidableEq, Repr

/-- The `creditReportData` container of one report. -/
structure CreditReportData where
  score : Option CreditScore
  creditAccount : Option CreditAccount

deriving DecidableEq, Repr

/-- One entry of `creditReports`. -/
structure CreditReport where
  creditReportData : Option CreditReportData

deriving DecidableEq, Repr

/-- A raw credit-report payload. -/
structure CreditPayload where
  creditReports : Option (List CreditReport)

deriving DecidableEq, Repr

/-- One normalized credit account. -/
structure ProcessedAccount where
  id : Option String
  subscriber : Option String
  accountType : Option String
  creditLimit : ℚ
  currentBalance : ℚ
  paymentRating : Option String
  accountStatus : Option String
  openDate : Option String

deriving DecidableEq, Repr

/-- The normalized credit record (totals absent in the no-data branch of
the source are modelled as zeros there). -/
structure CreditResult where
  creditScore : Option ℤ
  accounts : List ProcessedAccount
  totalAccounts : ℚ
  activeAccounts : ℚ
  outstandingBalance : Option String
  error : Option String

deriving DecidableEq, Repr

/-- Embedding of `processCreditData` (utils.js lines 105-135).  When
`creditReports` is nonempty but its first report lacks `creditReportData`,
the read `creditData.score` throws a `TypeError`. -/
def processCreditData (response : Option CreditPayload) : Except JsErr CreditResult :=
  match response with
  | none =>
    Except.ok { creditScore := none, accounts := [], totalAccounts := 0, activeAccounts := 0,
                outstandingBalance := none, error := some "No credit data available" }
  | some resp =>
    match resp.creditReports with
    | none =>
      Except.ok { creditScore := none, accounts := [], totalAccounts := 0, activeAccounts := 0,
                  outstandingBalance := none, error := some "No credit data available" }
    | some [] =>
      Except.ok { creditScore := none, accounts := [], totalAccounts := 0, activeAccounts := 0,
                  outstandingBalance := none, error := some "No credit data available" }
    | some (r :: _) =>
      match r.creditReportData with
      | none =>
        Except.error (JsErr.typeError "Cannot read properties of undefined (reading score)")
      | some creditData =>
        Except.ok
          { creditScore := creditData.score.bind CreditScore.bureauScore,
            accounts :=
              ((creditData.creditAccount.bind CreditAccount.creditAccountDetails).getD []).map
                (fun account =>
                  { id := account.identificationNumber,
                    subscriber := account.subscriberName,
                    accountType := account.accountType,
                    creditLimit := account.creditLimitAmount.getD 0,
                    currentBalance := account.currentBalance.getD 0,
                    paymentRating := account.paymentRating,
                    accountStatus := account.accountStatus,
                    openDate := account.openDate }),
            totalAccounts :=
              ((((creditData.creditAccount.bind CreditAccount.creditAccountSummary).bind
                  CreditAccountSummary.account).bind SummaryAccount.creditAccountTotal).getD 0),
            activeAccounts :=
              ((((creditData.creditAccount.bind CreditAccount.creditAccountSummary).bind
                  CreditAccountSummary.account).bind SummaryAccount.creditAccountActive).getD 0),
            outstandingBalance :=
              (creditData.creditAccount.bind CreditAccount.creditAccountSummary).bind
                CreditAccountSummary.totalOutstandingBalance,
            error := none }

/-- A share-balance leaf (`..._share.balance` / `..._share_total.balance`). -/
structure ShareBalance where
  balance : Option ℚ

deriving DecidableEq, Repr

/-- The `overall_pf_balance` container. -/
structure OverallPfBalance where
  current_pf_balance : Option ℚ
  employee_share_total : Option ShareBalance
  pension_balance : Option ℚ

deriving DecidableEq, Repr

/-- The `pf_balance` container of one establishment record. -/
structure PfBalance where
  employer_share : Option ShareBalance

deriving DecidableEq, Repr

/-- One entry of `est_details`. -/
structure EstDetail where
  pf_balance : Option PfBalance

deriving DecidableEq, Repr

/-- The `rawDetails` container of one `uanAccount`. -/
structure RawDetails where
  overall_pf_balance : Option OverallPfBalance
  est_details : Option (List EstDetail)

deriving DecidableEq, Repr

/-- One entry of `uanAccounts`. -/
structure UanAccount where
  rawDetails : Option RawDetails

deriving DecidableEq, Repr

/-- A raw retirement-fund payload. -/
structure EPFPayload where
  uanAccounts : Option (List UanAccount)

deriving DecidableEq, Repr

/-- The normalized retirement-fund record. -/
structure EPFResult where
  totalBalance : ℚ
  employeeShare : ℚ
  employerShare : ℚ
  pensionBalance : ℚ
  employerDetails : List EstDetail
  error : Option String

deriving DecidableEq, Repr

/-- The per-establishment employer-share contribution read inside the
`reduce` of `processEPFData`:
`parseFloat(est?.pf_balance?.employer_share?.balance) || 0`. -/
def estEmployerShare (est : EstDetail) : ℚ :=
  (((est.pf_balance.bind PfBalance.employer_share).bind ShareBalance.balance).getD 0)

/-- Embedding of `processEPFData` (utils.js lines 142-174).  When
`uanAccounts` is nonempty but its first entry lacks `rawDetails`, the read
`epfData.overall_pf_balance` throws a `TypeError`; `est_details` that is
not an array contributes an employer share of 0. -/
def processEPFData (response : Option EPFPayload) : Except JsErr EPFResult :=
  match response with
  | none =>
    Except.ok { totalBalance := 0, employeeShare := 0, employerShare := 0,
                pensionBalance := 0, employerDetails := [],
                error := some "No EPF data available" }
  | some resp =>
    match resp.uanAccounts with
    | none =>
      Except.ok { totalBalance := 0, employeeShare := 0, employerShare := 0,
                  pensionBalance := 0, employerDetails := [],
                  error := some "No EPF data available" }
    | some [] =>
      Except.ok { totalBalance := 0, employeeShare := 0, employerShare := 0,
                  pensionBalance := 0, employerDetails := [],
                  error := some "No EPF data available" }
    | some (a :: _) =>
      match a.rawDetails with
      | none =>
        Except.error
          (JsErr.typeError "Cannot read properties of undefined (reading overall_pf_balance)")
      | some epfData =>
        Except.ok
          { totalBalance :=
              ((epfData.overall_pf_balance.bind OverallPfBalance.current_pf_balance).getD 0),
            employeeShare :=
              (((epfData.overall_pf_balance.bind OverallPfBalance.employee_share_total).bind
                  ShareBalance.balance).getD 0),
            employerShare :=
              (epfData.est_details.getD []).foldl (fun sum est => sum + estEmployerShare est) 0,
            pensionBalance :=
              ((epfData.overall_pf_balance.bind OverallPfBalance.pension_balance).getD 0),
            employerDetails := epfData.est_details.getD [],
            error := none }

/-- One fixed-position mutual-fund transaction tuple
`[orderType, date, nav, units, amount]`. -/
structure MFTxnTuple where
  orderType : ℤ
  date : String
  nav : ℚ
  units : ℚ
  amount : ℚ

deriving DecidableEq, Repr

/-- One entry of `mfTransactions`: a scheme record holding its transaction
tuples. -/
structure MFScheme where
  isin : Option String
  folioId : Option String
  schemeName : Option String
  txns : Option (List MFTxnTuple)

deriving DecidableEq, Repr

/-- A raw mutual-fund transactions payload. -/
structure MFPayload where
  mfTransactions : Option (List MFScheme)

deriving DecidableEq, Repr

/-- One flattened, scheme-tagged mutual-fund transaction. -/
structure MFTransaction where
  isin : Option String
  folioId : Option String
  type : String
  date : String
  amount : ℚ
  units : ℚ
  nav : ℚ
  schemeName : Option String

deriving DecidableEq, Repr

/-- Tagging of one tuple with its scheme identity, as pushed by the inner
`forEach` of `processMFTransactions`: `orderType === 1` is labeled `BUY`,
anything else `SELL`. -/
def mfTagTxn (s : MFScheme) (t : MFTxnTuple) : MFTransaction :=
  { isin := s.isin, folioId := s.folioId,
    type := if t.orderType = 1 then "BUY" else "SELL",
    date := t.date, amount := t.amount, units := t.units, nav := t.nav,
    schemeName := s.schemeName }

/-- Flattening of all schemes into one transaction list; a scheme whose
`txns` is absent makes `scheme.txns.forEach` throw a `TypeError`. -/
def flattenMF : List MFScheme → Except JsErr (List MFTransaction)
  | [] => Except.ok []
  | s :: rest =>
    match s.txns with
    | none => Except.error (JsErr.typeError "Cannot read properties of undefined (reading forEach)")
    | some ts =>
      match flattenMF rest with
      | Except.error e => Except.error e
      | Except.ok txs => Except.ok (ts.map (mfTagTxn s) ++ txs)

/-- Per-scheme aggregate built by the grouping `reduce`. -/
structure SchemeAgg where
  isin : Option String
  schemeName : Option String
  transactions : List MFTransaction
  totalInvested : ℚ
  totalUnits : ℚ

deriving DecidableEq, Repr

/-- Lookup in the association-list model of the JavaScript accumulator
object. -/
def assocFind {β : Type} (k : Option String) : List (Option String × β) → Option β
  | [] => none
  | (k2, v) :: rest => if k = k2 then some v else assocFind k rest

/-- Update-or-append in the association-list model: an existing key keeps
its position, a new key is appended (JavaScript property insertion
order). -/
def assocUpsert {β : Type} (k : Option String) (v : β) :
    List (Option String × β) → List (Option String × β)
  | [] => [(k, v)]
  | (k2, v2) :: rest => if k = k2 then (k2, v) :: rest else (k2, v2) :: assocUpsert k v rest

/-- The fresh scheme entry created when a transaction's `isin` key is not
yet in the accumulator. -/
def mfInit (tx : MFTransaction) : SchemeAgg :=
  { isin := tx.isin, schemeName := tx.schemeName, transactions := [],
    totalInvested := 0, totalUnits := 0 }

/-- The body of the scheme-grouping `reduce` applied to one existing
aggregate: push the transaction, then add the amount/units for `BUY` and
subtract them for anything else. -/
def mfUpd (tx : MFTransaction) (base : SchemeAgg) : SchemeAgg :=
  let withTx := { base with transactions := base.transactions ++ [tx] }
  if tx.type = "BUY" then
    { withTx with totalInvested := withTx.totalInvested + tx.amount,
                  totalUnits := withTx.totalUnits + tx.units }
  else
    { withTx with totalInvested := withTx.totalInvested - tx.amount,
                  totalUnits := withTx.totalUnits - tx.units }

/-- One step of the scheme-grouping `reduce` of `processMFTransactions`:
initialize the scheme entry if missing, then update it. -/
def mfStep (acc : List (Option String × SchemeAgg)) (tx : MFTransaction) :
    List (Option String × SchemeAgg) :=
  assocUpsert tx.isin (mfUpd tx ((assocFind tx.isin acc).getD (mfInit tx))) acc

/-- The normalized mutual-fund transactions record: the flattened list, the
per-scheme grouping, and the transaction count. -/
structure MFResult where
  transactions : List MFTransaction
  schemes : List (Option String × SchemeAgg)
  totalTransactions : ℕ
  error : Option String

deriving DecidableEq, Repr

/-- Embedding of `processMFTransactions` (utils.js lines 181-237). -/
def processMFTransactions (response : Option MFPayload) : Except JsErr MFResult :=
  match response with
  | none =>
    Except.ok { transactions := [], schemes := [], totalTransactions := 0,
                error := some "No transaction data available" }
  | some resp =>
    match resp.mfTransactions with
    | none =>
      Except.ok { transactions := [], schemes := [], totalTransactions := 0,
                  error := some "No transaction data available" }
    | some schemeRecords =>
      match flattenMF schemeRecords with
      | Except.error e => Except.error e
      | Except.ok transactions =>
        Except.ok { transactions := transactions,
                    schemes := transactions.foldl mfStep [],
                    totalTransactions := transactions.length,
                    error := none }

/-- One fixed-position bank transaction tuple
`[amount, narration, date, type, mode, balance]`. -/
structure BankTxnTuple where
  amount : ℚ
  narration : String
  date : String
  typeCode : ℤ
  mode : String
  balance : ℚ

deriving DecidableEq, Repr

/-- One entry of `bankTransactions`: a bank record holding its transaction
tuples. -/
structure BankRecord where
  bank : Option String
  txns : Option (List BankTxnTuple)

deriving DecidableEq, Repr

/-- A raw bank-transactions payload. -/
structure BankPayload where
  bankTransactions : Option (List BankRecord)

deriving DecidableEq, Repr

/-- Embedding of `getTransactionType` (utils.js lines 303-315): the fixed
8-entry lookup table, any other code mapping to `UNKNOWN`. -/
def getTransactionType (typeCode : ℤ) : String :=
  if typeCode = 1 then "CREDIT"
  else if typeCode = 2 then "DEBIT"
  else if typeCode = 3 then "OPENING"
  else if typeCode = 4 then "INTEREST"
  else if typeCode = 5 then "TDS"
  else if typeCode = 6 then "INSTALLMENT"
  else if typeCode = 7 then "CLOSING"
  else if typeCode = 8 then "OTHERS"
  else "UNKNOWN"

/-- One flattened, bank-tagged transaction. -/
structure BankTransaction where
  bank : Option String
  amount : ℚ
  narration : String
  date : String
  type : String
  mode : String
  balance : ℚ

deriving DecidableEq, Repr

/-- Tagging of one tuple with its bank identity, as pushed by the inner
`forEach` of `processBankTransactions`. -/
def bankTagTxn (b : BankRecord) (t : BankTxnTuple) : BankTransaction :=
  { bank := b.bank, amount := t.amount, narration := t.narration, date := t.date,
    type := getTransactionType t.typeCode, mode := t.mode, balance := t.balance }

/-- Flattening of all banks into one transaction list; a bank record whose
`txns` is absent makes `bank.txns.forEach` throw a `TypeError`. -/
def flattenBank : List BankRecord → Except JsErr (List BankTransaction)
  | [] => Except.ok []
  | b :: rest =>
    match b.txns with
    | none => Except.error (JsErr.typeError "Cannot read properties of undefined (reading forEach)")
    | some ts =>
      match flattenBank rest with
      | Except.error e => Except.error e
      | Except.ok txs => Except.ok (ts.map (bankTagTxn b) ++ txs)

/-- Per-bank aggregate built by the grouping `reduce`; `currentBalance`
starts at 0 and is raised to any strictly larger transaction balance. -/
structure BankAgg where
  bank : Option String
  transactions : List BankTransaction
  totalCredits : ℚ
  totalDebits : ℚ
  currentBalance : ℚ

deriving DecidableEq, Repr

/-- The fresh bank entry created when a transaction's bank key is not yet
in the accumulator. -/
def bankInit (tx : BankTransaction) : BankAgg :=
  { bank := tx.bank, transactions := [], totalCredits := 0, totalDebits := 0,
    currentBalance := 0 }

/-- The body of the bank-grouping `reduce` applied to one existing
aggregate: push the transaction, add the amount to credits or debits by
label, and raise `currentBalance` when the transaction balance strictly
exceeds it. -/
def bankUpd (tx : BankTransaction) (base : BankAgg) : BankAgg :=
  let withTx := { base with transactions := base.transactions ++ [tx] }
  let withTotals :=
    if tx.type = "CREDIT" then
      { withTx with totalCredits := withTx.totalCredits + tx.amount }
    else if tx.type = "DEBIT" then
      { withTx with totalDebits := withTx.totalDebits + tx.amount }
    else withTx
  if withTotals.currentBalance < tx.balance then
    { withTotals with currentBalance := tx.balance }
  else withTotals

/-- One step of the bank-grouping `reduce` of `processBankTransactions`:
initialize the bank entry if missing, then update it. -/
def bankStep (acc : List (Option String × BankAgg)) (tx : BankTransaction) :
    List (Option String × BankAgg) :=
  assocUpsert tx.bank (bankUpd tx ((assocFind tx.bank acc).getD (bankInit tx))) acc

/-- The normalized bank transactions record. -/
structure BankResult where
  transactions : List BankTransaction
  banks : List (Option String × BankAgg)
  totalTransactions : ℕ
  error : Option String

deriving DecidableEq, Repr

/-- Embedding of `processBankTransactions` (utils.js lines 244-296). -/
def processBankTransactions (response : Option BankPayload) : Except JsErr BankResult :=
  match response with
  | none =>
    Except.ok { transactions := [], banks := [], totalTransactions := 0,
                error := some "No bank transaction data available" }
  | some resp =>
    match resp.bankTransactions with
    | none =>
      Except.ok { transactions := [], banks := [], totalTransactions := 0,
                  error := some "No bank transaction data available" }
    | some bankRecords =>
      match flattenBank bankRecords with
      | Except.error e => Except.error e
      | Except.ok transactions =>
        Except.ok { transactions := transactions,
                    banks := transactions.foldl bankStep [],
                    totalTransactions := transactions.length,
                    error := none }

deriving instance DecidableEq for Except

/-- C1 counterexample: the claim says an amount with `units` absent but
`nanos` present decodes to `nanos / 1e9`; the code returns `0` for the
concrete amount with `units` absent and `nanos = 500000000` (whose claimed
value would be `1/2`). -/
theorem currencyToNumber_missing_units_counterexample :
    currencyToNumber (some { currencyCode := none, units := none, nanos := some 500000000 }) = 0 ∧
    ((0 : ℚ) ≠ (0 : ℚ) + 500000000 / 1000000000) := by
  constructor
  · rfl
  · norm_num

/-- C1 (amended): `currencyToNumber` returns `units + nanos/1e9` (missing
`nanos` treated as 0) only when `units` is present and nonzero; when `units`
is absent (or zero) it returns 0 outright and `nanos` is ignored; an absent
whole object also yields 0. -/
theorem currencyToNumber_amended_spec :
    (∀ (code : Option String) (u : ℚ) (n : Option ℚ), u ≠ 0 →
      currencyToNumber (some { currencyCode := code, units := some u, nanos := n }) =
        u + (n.getD 0) / 1000000000) ∧
    (∀ (code : Option String) (n : Option ℚ),
      currencyToNumber (some { currencyCode := code, units := none, nanos := n }) = 0) ∧
    (∀ (code : Option String) (n : Option ℚ),
      currencyToNumber (some { currencyCode := code, units := some 0, nanos := n }) = 0) ∧
    currencyToNumber none = 0 := by
  refine ⟨?_, ?_, ?_, rfl⟩
  · intro code u n hu
    simp [currencyToNumber, jsFalsyNum, hu]
  · intro code n
    rfl
  · intro code n
    simp [currencyToNumber, jsFalsyNum]

/-- C1 witness: the amended statement evaluated at `units = 3`,
`nanos = 250000000`. -/
theorem currencyToNumber_amended_witness :
    currencyToNumber (some { currencyCode := none, units := some 3, nanos := some 250000000 }) =
      3 + (250000000 : ℚ) / 1000000000 :=
  currencyToNumber_amended_spec.1 none 3 (some 250000000) (by norm_num)

/-- C9: `calculatePercentageChange current previous` equals
`(current - previous) / previous * 100` whenever `previous` is nonzero and
equals exactly 0 when `previous = 0`. -/
theorem calculatePercentageChange_spec :
    ∀ current previous : ℚ,
      (previous ≠ 0 →
        calculatePercentageChange current previous = ((current - previous) / previous) * 100) ∧
      calculatePercentageChange current 0 = 0 := by
  intro current previous
  constructor
  · intro h
    simp [calculatePercentageChange, h]
  · simp [calculatePercentageChange]

/-- C9 witness: the specification evaluated at `(150, 100)` and `(7, 0)`. -/
theorem calculatePercentageChange_spec_witness :
    calculatePercentageChange 150 100 = ((150 - 100 : ℚ) / 100) * 100 ∧
    calculatePercentageChange 7 0 = 0 :=
  ⟨(calculatePercentageChange_spec 150 100).1 (by norm_num),
   (calculatePercentageChange_spec 7 0).2⟩

/-- C2 counterexample: on a freshly constructed (uninitialized) client, the
concrete tool call `fetch_net_worth` against an envelope with neither
`error` nor `result` issues one transport call (not zero) and returns the
raw undefined result instead of failing with an invalid-state error. -/
theorem callTool_uninitialized_counterexample :
    (callTool MCPClient.new "fetch_net_worth"
        (CallTransport.response { error := none, result := none })
        (fun _ => (none : Option Unit))).2.2 ≠ [] ∧
    (callTool MCPClient.new "fetch_net_worth"
        (CallTransport.response { error := none, result := none })
        (fun _ => (none : Option Unit))).1 = CallOutcome.raw none := by
  exact ⟨by decide, rfl⟩

/-- C2 (amended): `callTool` performs no initialization check: in every
state, including the uninitialized one, and for every tool name, transport
outcome and parser, it issues exactly one transport call to the RPC
endpoint carrying the current (possibly absent) session id, leaves the
state unchanged, and never fails fast with an invalid-state error. -/
theorem callTool_no_state_check :
    ∀ (α : Type) (st : ClientState) (name : String) (tr : CallTransport)
      (parse : String → Option α),
      (callTool st name tr parse).2.2 = [{ endpoint := Endpoint.rpc, session := st.sessionId }] ∧
      (callTool st name tr parse).2.1 = st := by
  intro α st name tr parse
  exact ⟨rfl, rfl⟩

/-- C5 counterexample: with a session id set, the concrete 2xx status 204
does not yield success: `authenticate` returns the generic failure message
(which does not carry the status) and leaves `isAuthenticated` false. -/
theorem authenticate_204_counterexample :
    (authenticate { sessionId := some "s", isAuthenticated := false } "9999999999"
        (AuthTransport.response 204)).1 = Except.error "MCP authentication failed" ∧
    (authenticate { sessionId := some "s", isAuthenticated := false } "9999999999"
        (AuthTransport.response 204)).2.1.isAuthenticated = false := by
  exact ⟨rfl, rfl⟩

/-- C5 (amended): on a client whose session id is set, `authenticate`
succeeds and sets `isAuthenticated` exactly when the observed status is
200; every other status (2xx or not) yields the fixed error
`MCP authentication failed`, which does not carry the observed status. -/
theorem authenticate_only_200_succeeds :
    ∀ (st : ClientState) (sid : String) (p : String) (status : ℕ),
      st.sessionId = some sid →
      (status = 200 →
        authenticate st p (AuthTransport.response status) =
          (Except.ok true, { st with isAuthenticated := true },
           [{ endpoint := Endpoint.login, session := st.sessionId }])) ∧
      (status ≠ 200 →
        authenticate st p (AuthTransport.response status) =
          (Except.error "MCP authentication failed", st,
           [{ endpoint := Endpoint.login, session := st.sessionId }])) := by
  intro st sid p status hsid
  constructor
  · intro h200
    subst h200
    simp [authenticate, hsid]
  · intro hne
    rcases Nat.lt_or_ge status 300 with hlt | hge
    · rcases Nat.lt_or_ge status 200 with hlt2 | hge2
      · simp [authenticate, hsid, Nat.not_le_of_lt hlt2]
      · simp [authenticate, hsid, hge2, hlt, hne]
    · simp [authenticate, hsid, Nat.not_lt_of_le hge]
  

/-- C5 witness: the amended statement evaluated at status 200 and at
status 404 on the state with session id `s`. -/
theorem authenticate_only_200_succeeds_witness :
    authenticate { sessionId := some "s", isAuthenticated := false } "9999999999"
        (AuthTransport.response 200) =
      (Except.ok true, { sessionId := some "s", isAuthenticated := true },
       [{ endpoint := Endpoint.login, session := some "s" }]) ∧
    authenticate { sessionId := some "s", isAuthenticated := false } "9999999999"
        (AuthTransport.response 404) =
      (Except.error "MCP authentication failed",
       { sessionId := some "s", isAuthenticated := false },
       [{ endpoint := Endpoint.login, session := some "s" }]) :=
  ⟨(authenticate_only_200_succeeds
      { sessionId := some "s", isAuthenticated := false } "s" "9999999999" 200 rfl).1 rfl,
   (authenticate_only_200_succeeds
      { sessionId := some "s", isAuthenticated := false } "s" "9999999999" 404 rfl).2
     (by decide)⟩

/-- C6 counterexample: starting from a fresh client, a first handshake sets
the session id to `a`, yet a repeated handshake whose response carries the
header `b` overwrites it — the session id is not immutable once set. -/
theorem sessionId_reassigned_counterexample :
    (runOps MCPClient.new [ClientOp.initOp (InitTransport.success (some "a"))]).sessionId =
      some "a" ∧
    (runOps MCPClient.new
        [ClientOp.initOp (InitTransport.success (some "a")),
         ClientOp.initOp (InitTransport.success (some "b"))]).sessionId = some "b" ∧
    some "a" ≠ some "b" := by
  refine ⟨rfl, rfl, by decide⟩

/-- C6 (amended): across every client operation, `isAuthenticated` never
falls back from `true` to `false`, and it becomes `true` only through an
`authenticate` call that observed status 200 while a session id was set;
`sessionId`, however, is not immutable: it is only ever written by
`initialize`, which reassigns it on every handshake (see the
counterexample), and no other operation changes it. -/
theorem client_state_monotonicity :
    ∀ (st : ClientState) (op : ClientOp),
      (st.isAuthenticated = true → (clientStep st op).isAuthenticated = true) ∧
      ((clientStep st op).isAuthenticated = true →
        st.isAuthenticated = true ∨
        (∃ p, op = ClientOp.authOp p (AuthTransport.response 200) ∧ st.sessionId ≠ none)) ∧
      ((∀ tr, op ≠ ClientOp.initOp tr) → (clientStep st op).sessionId = st.sessionId) := by
  intro st op
  cases op with
  | initOp tr =>
    refine ⟨?_, ?_, ?_⟩
    · intro h
      cases tr with
      | failure => exact h
      | success hdr => cases hdr <;> exact h
    · intro h
      left
      cases tr with
      | failure => exact h
      | success hdr => cases hdr <;> exact h
    · intro habs
      exact absurd rfl (habs tr)
  | authOp p tr =>
    cases hsid : st.sessionId with
    | none =>
      refine ⟨?_, ?_, ?_⟩
      · intro h
        simpa [clientStep, authenticate, hsid] using h
      · intro h
        left
        simpa [clientStep, authenticate, hsid] using h
      · intro _
        simp [clientStep, authenticate, hsid]
    | some sid =>
      cases tr with
      | failure =>
        refine ⟨?_, ?_, ?_⟩
        · intro h
          simpa [clientStep, authenticate, hsid] using h
        · intro h
          left
          simpa [clientStep, authenticate, hsid] using h
        · intro _
          simp [clientStep, authenticate, hsid]
      | response status =>
        by_cases h2xx : 200 ≤ status ∧ status < 300
        · by_cases h200 : status = 200
          · subst h200
            refine ⟨?_, ?_, ?_⟩
            · intro _
              simp [clientStep, authenticate, hsid]
            · intro _
              right
              exact ⟨p, rfl, by simp [hsid]⟩
            · intro _
              simp [clientStep, authenticate, hsid]
          · refine ⟨?_, ?_, ?_⟩
            · intro h
              simpa [clientStep, authenticate, hsid, h2xx, h200] using h
            · intro h
              left
              simpa [clientStep, authenticate, hsid, h2xx, h200] using h
            · intro _
              simp [clientStep, authenticate, hsid, h2xx, h200]
        · refine ⟨?_, ?_, ?_⟩
          · intro h
            simpa [clientStep, authenticate, hsid, h2xx] using h
          · intro h
            left
            simpa [clientStep, authenticate, hsid, h2xx] using h
          · intro _
            simp [clientStep, authenticate, hsid, h2xx]
  | listToolsOp tr =>
    refine ⟨?_, ?_, ?_⟩
    · intro h
      cases tr <;> exact h
    · intro h
      left
      cases tr <;> exact h
    · intro _
      cases tr <;> rfl
  | callToolOp n tr =>
    exact ⟨fun h => h, fun h => Or.inl h, fun _ => rfl⟩

/-- C6 witness: monotonicity applied to the concrete authenticated state
and a failing `listTools` call. -/
theorem client_state_monotonicity_witness :
    (clientStep { sessionId := some "s", isAuthenticated := true }
        (ClientOp.listToolsOp ListTransport.failure)).isAuthenticated = true :=
  (client_state_monotonicity { sessionId := some "s", isAuthenticated := true }
      (ClientOp.listToolsOp ListTransport.failure)).1 rfl

/-- C10: for every tool-call response envelope carrying no `error`, if the
result is absent, has no `content` list, an empty one, or a first item that
is not textual or lacks a `text` field, then `callTool` returns the raw
result member unchanged (and does not fail), for every client state, tool
name and JSON parser. -/
theorem callTool_raw_result_passthrough :
    ∀ (α : Type) (st : ClientState) (name : String) (env : RpcEnvelope)
      (parse : String → Option α),
      env.error = none →
      (env.result = none ∨
        ∃ r, env.result = some r ∧
          (r.content = none ∨ r.content = some [] ∨
            ∃ c cs, r.content = some (c :: cs) ∧ (c.type ≠ some "text" ∨ c.text = none))) →
      (callTool st name (CallTransport.response env) parse).1 = CallOutcome.raw env.result := by
  intro α st name env parse herr hshape
  rcases hshape with hres | ⟨r, hres, hcont⟩
  · simp [callTool, callToolHandle, herr, hres]
  · rcases hcont with hc | hc | ⟨c, cs, hc, hbad⟩
    · simp [callTool, callToolHandle, herr, hres, hc]
    · simp [callTool, callToolHandle, herr, hres, hc]
    · rcases hbad with hty | htx
      · cases hty2 : c.type with
        | none => simp [callTool, callToolHandle, herr, hres, hc, hty2]
        | some s =>
          cases htx2 : c.text with
          | none => simp [callTool, callToolHandle, herr, hres, hc, hty2, htx2]
          | some t =>
            have hs : s ≠ "text" := by
              intro hcontra
              exact hty (by rw [hty2, hcontra])
            simp [callTool, callToolHandle, herr, hres, hc, hty2, htx2, hs]
      · cases hty2 : c.type with
        | none => simp [callTool, callToolHandle, herr, hres, hc, hty2]
        | some s =>
          by_cases hs : s = "text"
          · subst hs
            simp [callTool, callToolHandle, herr, hres, hc, hty2, htx]
          · simp [callTool, callToolHandle, herr, hres, hc, hty2, hs]

/-- C10 witness: the pass-through evaluated on a concrete envelope whose
result has a first content item with a non-text type. -/
theorem callTool_raw_result_passthrough_witness :
    (callTool MCPClient.new "fetch_net_worth"
        (CallTransport.response
          { error := none,
            result := some { content := some [{ type := some "image", text := none }],
                             payload := "rest" } })
        (fun _ => (none : Option Unit))).1 =
      CallOutcome.raw
        (some { content := some [{ type := some "image", text := none }], payload := "rest" }) :=
  callTool_raw_result_passthrough Unit MCPClient.new "fetch_net_worth"
    { error := none,
      result := some { content := some [{ type := some "image", text := none }],
                       payload := "rest" } }
    (fun _ => none) rfl
    (Or.inr ⟨_, rfl, Or.inr (Or.inr ⟨_, _, rfl, Or.inl (by decide)⟩)⟩)

/-- Flattening succeeds exactly on scheme lists whose every record carries
its `txns` list. -/
theorem flattenMF_ok_of :
    ∀ l : List MFScheme, (∀ s ∈ l, s.txns ≠ none) → ∃ txs, flattenMF l = Except.ok txs := by
  intro l
  induction l with
  | nil =>
    intro _
    exact ⟨[], rfl⟩
  | cons s rest ih =>
    intro h
    cases hts : s.txns with
    | none => exact absurd hts (h s (List.mem_cons_self s rest))
    | some ts =>
      obtain ⟨txs, htxs⟩ := ih (fun x hx => h x (List.mem_cons_of_mem s hx))
      exact ⟨ts.map (mfTagTxn s) ++ txs, by simp [flattenMF, hts, htxs]⟩

/-- Bank flattening succeeds exactly on bank lists whose every record
carries its `txns` list. -/
theorem flattenBank_ok_of :
    ∀ l : List BankRecord, (∀ b ∈ l, b.txns ≠ none) → ∃ txs, flattenBank l = Except.ok txs := by
  intro l
  induction l with
  | nil =>
    intro _
    exact ⟨[], rfl⟩
  | cons b rest ih =>
    intro h
    cases hts : b.txns with
    | none => exact absurd hts (h b (List.mem_cons_self b rest))
    | some ts =>
      obtain ⟨txs, htxs⟩ := ih (fun x hx => h x (List.mem_cons_of_mem b hx))
      exact ⟨ts.map (bankTagTxn b) ++ txs, by simp [flattenBank, hts, htxs]⟩

/-- C3 counterexample: two of the particular payloads the claim covers do
raise.  A mutual-fund payload whose single scheme record lacks the inner
transaction list makes the normalizer throw, and a credit payload whose
first (and only) report lacks `creditReportData` makes the credit
normalizer throw. -/
theorem normalizers_raise_counterexample :
    processMFTransactions
        (some
          { mfTransactions :=
              some [{ isin := some "INF1", folioId := none, schemeName := none,
                      txns := none }] }) =
      Except.error (JsErr.typeError "Cannot read properties of undefined (reading forEach)") ∧
    processCreditData (some { creditReports := some [{ creditReportData := none }] }) =
      Except.error (JsErr.typeError "Cannot read properties of undefined (reading score)") :=
  ⟨rfl, rfl⟩

/-- C3 (amended): each of the five normalizers, given an entirely absent
top-level container (an absent payload, an absent container field, or an
empty report/account list), returns its zeroed record carrying a non-empty
reason string and does not raise; and each returns without raising whenever
the inner mandatory members are present (every scheme/bank record carrying
its `txns` list, the first credit report carrying `creditReportData`, the
first `uanAccount` carrying `rawDetails`).  But those inner members are
mandatory: a scheme or bank record lacking `txns`, or a first report
lacking `creditReportData`, raises a `TypeError` (see the
counterexample). -/
theorem normalizers_missing_container_amended :
    (∀ (p : MFPayload) (l : List MFScheme), p.mfTransactions = some l →
      (∀ s ∈ l, s.txns ≠ none) → ∃ r, processMFTransactions (some p) = Except.ok r) ∧
    (∀ (p : BankPayload) (l : List BankRecord), p.bankTransactions = some l →
      (∀ b ∈ l, b.txns ≠ none) → ∃ r, processBankTransactions (some p) = Except.ok r) ∧
    (∀ (p : CreditPayload) (r : CreditReport) (rest : List CreditReport),
      p.creditReports = some (r :: rest) → r.creditReportData ≠ none →
      ∃ res, processCreditData (some p) = Except.ok res) ∧
    (∀ (p : EPFPayload) (a : UanAccount) (rest : List UanAccount),
      p.uanAccounts = some (a :: rest) → a.rawDetails ≠ none →
      ∃ res, processEPFData (some p) = Except.ok res) ∧
    processNetWorthData none =
      { totalNetWorth := 0, currency := "INR", assets := [], mutualFunds := [],
        accountDetails := none, error := some "No net worth data available" } ∧
    processNetWorthData
        (some { netWorthResponse := none, mfSchemeAnalytics := none,
                accountDetailsBulkResponse := none }) =
      { totalNetWorth := 0, currency := "INR", assets := [], mutualFunds := [],
        accountDetails := none, error := some "No net worth data available" } ∧
    processCreditData none =
      Except.ok { creditScore := none, accounts := [], totalAccounts := 0, activeAccounts := 0,
                  outstandingBalance := none, error := some "No credit data available" } ∧
    processCreditData (some { creditReports := none }) =
      Except.ok { creditScore := none, accounts := [], totalAccounts := 0, activeAccounts := 0,
                  outstandingBalance := none, error := some "No credit data available" } ∧
    processCreditData (some { creditReports := some [] }) =
      Except.ok { creditScore := none, accounts := [], totalAccounts := 0, activeAccounts := 0,
                  outstandingBalance := none, error := some "No credit data available" } ∧
    processEPFData none =
      Except.ok { totalBalance := 0, employeeShare := 0, employerShare := 0, pensionBalance := 0,
                  employerDetails := [], error := some "No EPF data available" } ∧
    processEPFData (some { uanAccounts := none }) =
      Except.ok { totalBalance := 0, employeeShare := 0, employerShare := 0, pensionBalance := 0,
                  employerDetails := [], error := some "No EPF data available" } ∧
    processEPFData (some { uanAccounts := some [] }) =
      Except.ok { totalBalance := 0, employeeShare := 0, employerShare := 0, pensionBalance := 0,
                  employerDetails := [], error := some "No EPF data available" } ∧
    processMFTransactions none =
      Except.ok { transactions := [], schemes := [], totalTransactions := 0,
                  error := some "No transaction data available" } ∧
    processMFTransactions (some { mfTransactions := none }) =
      Except.ok { transactions := [], schemes := [], totalTransactions := 0,
                  error := some "No transaction data available" } ∧
    processBankTransactions none =
      Except.ok { transactions := [], banks := [], totalTransactions := 0,
                  error := some "No bank transaction data available" } ∧
    processBankTransactions (some { bankTransactions := none }) =
      Except.ok { transactions := [], banks := [], totalTransactions := 0,
                  error := some "No bank transaction data available" } := by
  refine ⟨?_, ?_, ?_, ?_, rfl, rfl, rfl, rfl, rfl, rfl, rfl, rfl, rfl, rfl, rfl, rfl⟩
  · intro p l hml hall
    obtain ⟨txs, htxs⟩ := flattenMF_ok_of l hall
    cases hres : processMFTransactions (some p) with
    | ok r => exact ⟨r, rfl⟩
    | error err => simp [processMFTransactions, hml, htxs] at hres
  · intro p l hbl hall
    obtain ⟨txs, htxs⟩ := flattenBank_ok_of l hall
    cases hres : processBankTransactions (some p) with
    | ok r => exact ⟨r, rfl⟩
    | error err => simp [processBankTransactions, hbl, htxs] at hres
  · intro p r rest hcr hcd
    cases hd : r.creditReportData with
    | none => exact absurd hd hcd
    | some cd =>
      cases hres : processCreditData (some p) with
      | ok res => exact ⟨res, rfl⟩
      | error err => simp [processCreditData, hcr, hd] at hres
  · intro p a rest hua hrd
    cases hd : a.rawDetails with
    | none => exact absurd hd hrd
    | some d =>
      cases hres : processEPFData (some p) with
      | ok res => exact ⟨res, rfl⟩
      | error err => simp [processEPFData, hua, hd] at hres

/-- C3 witness: the no-raise guarantee applied to a concrete mutual-fund
payload whose single scheme carries an (empty) `txns` list. -/
theorem normalizers_missing_container_witness :
    ∃ r, processMFTransactions
        (some
          { mfTransactions :=
              some [{ isin := some "INF1", folioId := none, schemeName := none,
                      txns := some [] }] }) =
      Except.ok r :=
  normalizers_missing_container_amended.1
    { mfTransactions :=
        some [{ isin := some "INF1", folioId := none, schemeName := none, txns := some [] }] }
    [{ isin := some "INF1", folioId := none, schemeName := none, txns := some [] }]
    rfl (by simp)

/-- Lookup after update-or-append: the updated key reads the new value,
every other key is unaffected. -/
theorem assocFind_upsert {β : Type} (k1 k2 : Option String) (v : β)
    (m : List (Option String × β)) :
    assocFind k1 (assocUpsert k2 v m) = if k1 = k2 then some v else assocFind k1 m := by
  induction m with
  | nil => simp [assocUpsert, assocFind]
  | cons hd tl ih =>
    obtain ⟨k3, v3⟩ := hd
    by_cases h23 : k2 = k3
    · subst h23
      by_cases h12 : k1 = k2 <;> simp [assocUpsert, assocFind, h12]
    · by_cases h13 : k1 = k3
      · subst h13
        have h12 : k1 ≠ k2 := fun h => h23 h.symm
        simp [assocUpsert, h23, assocFind, h12]
      · simp [assocUpsert, h23, assocFind, h13, ih]

/-- `if a < b then b else a` is the binary maximum. -/
theorem ite_lt_eq_max (a b : ℚ) : (if a < b then b else a) = max a b := by
  rcases lt_or_ge a b with h | h
  · simp [h, max_eq_right (le_of_lt h)]
  · simp [not_lt.mpr h, max_eq_left h]

/-- The bank-aggregate update raises `currentBalance` to the maximum of its
old value and the transaction balance, whatever the transaction label. -/
theorem bankUpd_currentBalance (tx : BankTransaction) (base : BankAgg) :
    (bankUpd tx base).currentBalance = max base.currentBalance tx.balance := by
  by_cases h1 : tx.type = "CREDIT"
  · simp only [bankUpd, h1, if_true]
    rw [apply_ite BankAgg.currentBalance]
    exact ite_lt_eq_max base.currentBalance tx.balance
  · by_cases h2 : tx.type = "DEBIT"
    · simp only [bankUpd, h1, h2, if_false, if_true]
      rw [apply_ite BankAgg.currentBalance]
      exact ite_lt_eq_max base.currentBalance tx.balance
    · simp only [bankUpd, h1, h2, if_false]
      rw [apply_ite BankAgg.currentBalance]
      exact ite_lt_eq_max base.currentBalance tx.balance

/-- The scheme-aggregate update adds the amount for `BUY` and subtracts it
otherwise. -/
theorem mfUpd_totalInvested (tx : MFTransaction) (base : SchemeAgg) :
    (mfUpd tx base).totalInvested =
      if tx.type = "BUY" then base.totalInvested + tx.amount
      else base.totalInvested - tx.amount := by
  unfold mfUpd
  split <;> rfl

/-- The scheme-aggregate update adds the units for `BUY` and subtracts them
otherwise. -/
theorem mfUpd_totalUnits (tx : MFTransaction) (base : SchemeAgg) :
    (mfUpd tx base).totalUnits =
      if tx.type = "BUY" then base.totalUnits + tx.units
      else base.totalUnits - tx.units := by
  unfold mfUpd
  split <;> rfl

/-- Invariant of the bank-grouping fold: starting from an accumulator that
correctly summarizes the `seen` transactions, after folding `txs` every
bank entry's `currentBalance` is the maximum (with initial value 0) of the
balances of that bank's transactions among `seen ++ txs`, and absent
entries correspond to banks with no transactions. -/
theorem bankFold_invariant :
    ∀ (txs : List BankTransaction) (acc : List (Option String × BankAgg))
      (seen : List BankTransaction),
      (∀ key, assocFind key acc = none →
        seen.filter (fun tx => tx.bank = key) = []) →
      (∀ key agg, assocFind key acc = some agg →
        agg.currentBalance =
          ((seen.filter (fun tx => tx.bank = key)).map (fun tx => tx.balance)).foldl max 0) →
      (∀ key, assocFind key (txs.foldl bankStep acc) = none →
        (seen ++ txs).filter (fun tx => tx.bank = key) = []) ∧
      (∀ key agg, assocFind key (txs.foldl bankStep acc) = some agg →
        agg.currentBalance =
          (((seen ++ txs).filter (fun tx => tx.bank = key)).map
            (fun tx => tx.balance)).foldl max 0) := by
  intro txs
  induction txs with
  | nil =>
    intro acc seen h0 h1
    constructor
    · intro key h
      simpa using h0 key h
    · intro key agg h
      simpa using h1 key agg h
  | cons tx rest ih =>
    intro acc seen h0 h1
    have hstep0 : ∀ key, assocFind key (bankStep acc tx) = none →
        (seen ++ [tx]).filter (fun t => t.bank = key) = [] := by
      intro key hfind
      simp only [bankStep, assocFind_upsert] at hfind
      by_cases hk : key = tx.bank
      · rw [if_pos hk] at hfind
        exact absurd hfind (by simp)
      · rw [if_neg hk] at hfind
        have hne : tx.bank ≠ key := fun hh => hk hh.symm
        simp [List.filter_append, h0 key hfind, List.filter_cons, hne]
    have hstep1 : ∀ key agg, assocFind key (bankStep acc tx) = some agg →
        agg.currentBalance =
          (((seen ++ [tx]).filter (fun t => t.bank = key)).map
            (fun t => t.balance)).foldl max 0 := by
      intro key agg hfind
      simp only [bankStep, assocFind_upsert] at hfind
      by_cases hk : key = tx.bank
      · rw [if_pos hk] at hfind
        have hagg : agg = bankUpd tx ((assocFind tx.bank acc).getD (bankInit tx)) :=
          (Option.some.inj hfind).symm
        subst hagg
        subst hk
        rw [bankUpd_currentBalance, List.filter_append]
        cases hbase : assocFind tx.bank acc with
        | none =>
          have hseen := h0 tx.bank hbase
          simp [hbase, hseen, bankInit]
        | some agg0 =>
          have heq := h1 tx.bank agg0 hbase
          simp [hbase, heq, List.foldl_append]
      · rw [if_neg hk] at hfind
        have hne : tx.bank ≠ key := fun hh => hk hh.symm
        have heq := h1 key agg hfind
        simpa [List.filter_append, List.filter_cons, hne] using heq
    have hmain := ih (bankStep acc tx) (seen ++ [tx]) hstep0 hstep1
    constructor
    · intro key h
      have hres := hmain.1 key (by simpa [List.foldl_cons] using h)
      simpa [List.append_assoc] using hres
    · intro key agg h
      have hres := hmain.2 key agg (by simpa [List.foldl_cons] using h)
      simpa [List.append_assoc] using hres

/-- C4 (amended): for every bank-transactions payload that normalizes
without raising, each bank aggregate's `currentBalance` equals the fold of
`max` over that bank's transaction balances starting from 0 — that is, the
maximum of 0 and all observed balances, not the plain maximum: when every
balance is negative the aggregate reports 0. -/
theorem bank_currentBalance_clamped_max :
    ∀ (resp : Option BankPayload) (r : BankResult) (key : Option String) (agg : BankAgg),
      processBankTransactions resp = Except.ok r →
      assocFind key r.banks = some agg →
      agg.currentBalance =
        ((r.transactions.filter (fun tx => tx.bank = key)).map
          (fun tx => tx.balance)).foldl max 0 := by
  intro resp r key agg hok hfind
  cases resp with
  | none =>
    cases hok
    simp [assocFind] at hfind
  | some p =>
    cases hbt : p.bankTransactions with
    | none =>
      simp only [processBankTransactions, hbt] at hok
      cases hok
      simp [assocFind] at hfind
    | some l =>
      cases hfl : flattenBank l with
      | error e =>
        simp only [processBankTransactions, hbt, hfl] at hok
        exact absurd hok (by simp)
      | ok txs =>
        simp only [processBankTransactions, hbt, hfl] at hok
        cases hok
        have hinv := bankFold_invariant txs [] []
          (fun key2 _ => rfl)
          (fun key2 agg2 h => by simp [assocFind] at h)
        have hres := hinv.2 key agg (by simpa using hfind)
        simpa using hres

/-- C4 counterexample: a bank whose single transaction (an `OPENING`
entry) has balance `-5` aggregates to `currentBalance = 0`, while the
maximum of the observed balances is `-5`; the claimed equality fails since
`0 ≠ -5`. -/
theorem bank_currentBalance_negative_counterexample :
    processBankTransactions
        (some
          { bankTransactions :=
              some [{ bank := some "HDFC Bank",
                      txns := some [{ amount := 10, narration := "txn", date := "2024-01-01",
                                      typeCode := 3, mode := "UPI", balance := -5 }] }] }) =
      Except.ok
        { transactions := [{ bank := some "HDFC Bank", amount := 10, narration := "txn",
                             date := "2024-01-01", type := "OPENING", mode := "UPI",
                             balance := -5 }],
          banks := [(some "HDFC Bank",
            { bank := some "HDFC Bank",
              transactions := [{ bank := some "HDFC Bank", amount := 10, narration := "txn",
                                 date := "2024-01-01", type := "OPENING", mode := "UPI",
                                 balance := -5 }],
              totalCredits := 0, totalDebits := 0, currentBalance := 0 })],
          totalTransactions := 1, error := none } ∧
    ((0 : ℚ) ≠ -5) :=
  ⟨by decide, by decide⟩

/-- C4 witness: the amended statement evaluated on a concrete payload with
one `OPENING` and one `INTEREST` transaction for one bank. -/
theorem bank_currentBalance_clamped_max_witness :
    ({ bank := some "B", transactions := [{ bank := some "B", amount := 10, narration := "t1",
                                            date := "d1", type := "OPENING", mode := "m",
                                            balance := 40 },
                                          { bank := some "B", amount := 3, narration := "t2",
                                            date := "d2", type := "INTEREST", mode := "m",
                                            balance := 37 }],
       totalCredits := 0, totalDebits := 0, currentBalance := 40 } : BankAgg).currentBalance =
      ((([{ bank := some "B", amount := 10, narration := "t1", date := "d1", type := "OPENING",
            mode := "m", balance := 40 },
          { bank := some "B", amount := 3, narration := "t2", date := "d2", type := "INTEREST",
            mode := "m", balance := 37 }] : List BankTransaction).filter
          (fun tx => tx.bank = some "B")).map (fun tx => tx.balance)).foldl max 0 :=
  bank_currentBalance_clamped_max
    (some
      { bankTransactions :=
          some [{ bank := some "B",
                  txns := some [{ amount := 10, narration := "t1", date := "d1", typeCode := 3,
                                  mode := "m", balance := 40 },
                                { amount := 3, narration := "t2", date := "d2", typeCode := 4,
                                  mode := "m", balance := 37 }] }] })
    { transactions := [{ bank := some "B", amount := 10, narration := "t1", date := "d1",
                         type := "OPENING", mode := "m", balance := 40 },
                       { bank := some "B", amount := 3, narration := "t2", date := "d2",
                         type := "INTEREST", mode := "m", balance := 37 }],
      banks := [(some "B",
        { bank := some "B",
          transactions := [{ bank := some "B", amount := 10, narration := "t1", date := "d1",
                             type := "OPENING", mode := "m", balance := 40 },
                           { bank := some "B", amount := 3, narration := "t2", date := "d2",
                             type := "INTEREST", mode := "m", balance := 37 }],
          totalCredits := 0, totalDebits := 0, currentBalance := 40 })],
      totalTransactions := 2, error := none }
    (some "B")
    { bank := some "B", transactions := [{ bank := some "B", amount := 10, narration := "t1",
                                           date := "d1", type := "OPENING", mode := "m",
                                           balance := 40 },
                                         { bank := some "B", amount := 3, narration := "t2",
                                           date := "d2", type := "INTEREST", mode := "m",
                                           balance := 37 }],
      totalCredits := 0, totalDebits := 0, currentBalance := 40 }
    (by decide) (by decide)

/-- A scheme key with no transactions at all has no transactions of either
label. -/
theorem filter_conj_nil (seen : List MFTransaction) (key : Option String) (ty : String)
    (h : seen.filter (fun tx => tx.isin = key) = []) :
    seen.filter (fun tx => tx.isin = key ∧ tx.type = ty) = [] := by
  have h' : ∀ a ∈ seen, ¬(a.isin = key) := by simpa using h
  have h2 : ∀ a ∈ seen, ¬(a.isin = key ∧ a.type = ty) := fun a ha hc => h' a ha hc.1
  simpa using h2

/-- Every flattened mutual-fund transaction is labeled `BUY` or `SELL`. -/
theorem flattenMF_types :
    ∀ (l : List MFScheme) (txs : List MFTransaction), flattenMF l = Except.ok txs →
      ∀ tx ∈ txs, tx.type = "BUY" ∨ tx.type = "SELL" := by
  intro l
  induction l with
  | nil =>
    intro txs h tx htx
    cases h
    simp at htx
  | cons s rest ih =>
    intro txs h tx htx
    cases hts : s.txns with
    | none => simp [flattenMF, hts] at h
    | some ts =>
      cases hfl : flattenMF rest with
      | error e => simp [flattenMF, hts, hfl] at h
      | ok txs2 =>
        simp only [flattenMF, hts, hfl] at h
        cases h
        rcases List.mem_append.mp htx with hmem | hmem
        · obtain ⟨t, ht, rfl⟩ := List.mem_map.mp hmem
          by_cases h1 : t.orderType = 1
          · left
            simp [mfTagTxn, h1]
          · right
            simp [mfTagTxn, h1]
        · exact ih txs2 hfl tx hmem

/-- Invariant of the scheme-grouping fold: starting from an accumulator
that correctly summarizes the `seen` transactions, after folding `txs`
(all labeled `BUY` or `SELL`) every scheme entry's `totalInvested` and
`totalUnits` are the `BUY` sums minus the `SELL` sums of that scheme's
amounts and units among `seen ++ txs`. -/
theorem mfFold_invariant :
    ∀ (txs : List MFTransaction) (acc : List (Option String × SchemeAgg))
      (seen : List MFTransaction),
      (∀ tx ∈ txs, tx.type = "BUY" ∨ tx.type = "SELL") →
      (∀ key, assocFind key acc = none → seen.filter (fun tx => tx.isin = key) = []) →
      (∀ key agg, assocFind key acc = some agg →
        agg.totalInvested =
          ((seen.filter (fun tx => tx.isin = key ∧ tx.type = "BUY")).map
            (fun tx => tx.amount)).sum -
          ((seen.filter (fun tx => tx.isin = key ∧ tx.type = "SELL")).map
            (fun tx => tx.amount)).sum ∧
        agg.totalUnits =
          ((seen.filter (fun tx => tx.isin = key ∧ tx.type = "BUY")).map
            (fun tx => tx.units)).sum -
          ((seen.filter (fun tx => tx.isin = key ∧ tx.type = "SELL")).map
            (fun tx => tx.units)).sum) →
      (∀ key, assocFind key (txs.foldl mfStep acc) = none →
        (seen ++ txs).filter (fun tx => tx.isin = key) = []) ∧
      (∀ key agg, assocFind key (txs.foldl mfStep acc) = some agg →
        agg.totalInvested =
          (((seen ++ txs).filter (fun tx => tx.isin = key ∧ tx.type = "BUY")).map
            (fun tx => tx.amount)).sum -
          (((seen ++ txs).filter (fun tx => tx.isin = key ∧ tx.type = "SELL")).map
            (fun tx => tx.amount)).sum ∧
        agg.totalUnits =
          (((seen ++ txs).filter (fun tx => tx.isin = key ∧ tx.type = "BUY")).map
            (fun tx => tx.units)).sum -
          (((seen ++ txs).filter (fun tx => tx.isin = key ∧ tx.type = "SELL")).map
            (fun tx => tx.units)).sum) := by
  intro txs
  induction txs with
  | nil =>
    intro acc seen htypes h0 h1
    constructor
    · intro key h
      simpa using h0 key h
    · intro key agg h
      simpa using h1 key agg h
  | cons tx rest ih =>
    intro acc seen htypes h0 h1
    have htx : tx.type = "BUY" ∨ tx.type = "SELL" := htypes tx (List.mem_cons_self tx rest)
    have hstep0 : ∀ key, assocFind key (mfStep acc tx) = none →
        (seen ++ [tx]).filter (fun t => t.isin = key) = [] := by
      intro key hfind
      simp only [mfStep, assocFind_upsert] at hfind
      by_cases hk : key = tx.isin
      · rw [if_pos hk] at hfind
        exact absurd hfind (by simp)
      · rw [if_neg hk] at hfind
        have hne : tx.isin ≠ key := fun hh => hk hh.symm
        simp [List.filter_append, h0 key hfind, List.filter_cons, hne]
    have hstep1 : ∀ key agg, assocFind key (mfStep acc tx) = some agg →
        agg.totalInvested =
          (((seen ++ [tx]).filter (fun t => t.isin = key ∧ t.type = "BUY")).map
            (fun t => t.amount)).sum -
          (((seen ++ [tx]).filter (fun t => t.isin = key ∧ t.type = "SELL")).map
            (fun t => t.amount)).sum ∧
        agg.totalUnits =
          (((seen ++ [tx]).filter (fun t => t.isin = key ∧ t.type = "BUY")).map
            (fun t => t.units)).sum -
          (((seen ++ [tx]).filter (fun t => t.isin = key ∧ t.type = "SELL")).map
            (fun t => t.units)).sum := by
      intro key agg hfind
      simp only [mfStep, assocFind_upsert] at hfind
      by_cases hk : key = tx.isin
      · rw [if_pos hk] at hfind
        have hagg : agg = mfUpd tx ((assocFind tx.isin acc).getD (mfInit tx)) :=
          (Option.some.inj hfind).symm
        subst hagg
        subst hk
        rw [mfUpd_totalInvested, mfUpd_totalUnits]
        rcases htx with hty | hty
        · have hB : (seen ++ [tx]).filter (fun t => t.isin = tx.isin ∧ t.type = "BUY") =
              seen.filter (fun t => t.isin = tx.isin ∧ t.type = "BUY") ++ [tx] := by
            simp [List.filter_append, hty]
          have hS : (seen ++ [tx]).filter (fun t => t.isin = tx.isin ∧ t.type = "SELL") =
              seen.filter (fun t => t.isin = tx.isin ∧ t.type = "SELL") := by
            simp [List.filter_append, hty]
          cases hbase : assocFind tx.isin acc with
          | none =>
            have hseen := h0 tx.isin hbase
            have hb := filter_conj_nil seen tx.isin "BUY" hseen
            have hs := filter_conj_nil seen tx.isin "SELL" hseen
            constructor
            · rw [if_pos hty, Option.getD_none, hB, hS, hb, hs]
              simp [mfInit]
            · rw [if_pos hty, Option.getD_none, hB, hS, hb, hs]
              simp [mfInit]
          | some agg0 =>
            have heq := h1 tx.isin agg0 hbase
            constructor
            · rw [if_pos hty, Option.getD_some, hB, hS, List.map_append, List.sum_append, heq.1]
              simp only [List.map_cons, List.map_nil, List.sum_cons, List.sum_nil, add_zero]
              ring
            · rw [if_pos hty, Option.getD_some, hB, hS, List.map_append, List.sum_append, heq.2]
              simp only [List.map_cons, List.map_nil, List.sum_cons, List.sum_nil, add_zero]
              ring
        · have hnb : ¬(tx.type = "BUY") := by
            rw [hty]
            decide
          have hB : (seen ++ [tx]).filter (fun t => t.isin = tx.isin ∧ t.type = "BUY") =
              seen.filter (fun t => t.isin = tx.isin ∧ t.type = "BUY") := by
            simp [List.filter_append, hty]
          have hS : (seen ++ [tx]).filter (fun t => t.isin = tx.isin ∧ t.type = "SELL") =
              seen.filter (fun t => t.isin = tx.isin ∧ t.type = "SELL") ++ [tx] := by
            simp [List.filter_append, hty]
          cases hbase : assocFind tx.isin acc with
          | none =>
            have hseen := h0 tx.isin hbase
            have hb := filter_conj_nil seen tx.isin "BUY" hseen
            have hs := filter_conj_nil seen tx.isin "SELL" hseen
            constructor
            · rw [if_neg hnb, Option.getD_none, hB, hS, hb, hs]
              simp [mfInit]
            · rw [if_neg hnb, Option.getD_none, hB, hS, hb, hs]
              simp [mfInit]
          | some agg0 =>
            have heq := h1 tx.isin agg0 hbase
            constructor
            · rw [if_neg hnb, Option.getD_some, hB, hS, List.map_append, List.sum_append, heq.1]
              simp only [List.map_cons, List.map_nil, List.sum_cons, List.sum_nil, add_zero]
              ring
            · rw [if_neg hnb, Option.getD_some, hB, hS, List.map_append, List.sum_append, heq.2]
              simp only [List.map_cons, List.map_nil, List.sum_cons, List.sum_nil, add_zero]
              ring
      · rw [if_neg hk] at hfind
        have hne : tx.isin ≠ key := fun hh => hk hh.symm
        have heq := h1 key agg hfind
        have hB : (seen ++ [tx]).filter (fun t => t.isin = key ∧ t.type = "BUY") =
            seen.filter (fun t => t.isin = key ∧ t.type = "BUY") := by
          simp [List.filter_append, hne]
        have hS : (seen ++ [tx]).filter (fun t => t.isin = key ∧ t.type = "SELL") =
            seen.filter (fun t => t.isin = key ∧ t.type = "SELL") := by
          simp [List.filter_append, hne]
        rw [hB, hS]
        exact heq
    have hmain := ih (mfStep acc tx) (seen ++ [tx])
      (fun t ht => htypes t (List.mem_cons_of_mem tx ht)) hstep0 hstep1
    constructor
    · intro key h
      have hres := hmain.1 key (by simpa [List.foldl_cons] using h)
      simpa [List.append_assoc] using hres
    · intro key agg h
      have hres := hmain.2 key agg (by simpa [List.foldl_cons] using h)
      simpa [List.append_assoc] using hres

/-- C7: a transaction tuple with `orderType = 1` is labeled `BUY` and any
other order type `SELL`; for every mutual-fund payload that normalizes
without raising, each scheme aggregate satisfies
`totalInvested = Σ BUY amounts − Σ SELL amounts` and
`totalUnits = Σ BUY units − Σ SELL units` (never clamped); and the
single-scheme list `[(BUY, units 100, amount 1000), (SELL, units 40,
amount 500)]` yields `totalUnits = 60` and `totalInvested = 500`. -/
theorem mf_aggregate_invariant :
    (∀ (s : MFScheme) (t : MFTxnTuple),
      (mfTagTxn s t).type = if t.orderType = 1 then "BUY" else "SELL") ∧
    (∀ (resp : Option MFPayload) (r : MFResult) (key : Option String) (agg : SchemeAgg),
      processMFTransactions resp = Except.ok r →
      assocFind key r.schemes = some agg →
      agg.totalInvested =
        ((r.transactions.filter (fun tx => tx.isin = key ∧ tx.type = "BUY")).map
          (fun tx => tx.amount)).sum -
        ((r.transactions.filter (fun tx => tx.isin = key ∧ tx.type = "SELL")).map
          (fun tx => tx.amount)).sum ∧
      agg.totalUnits =
        ((r.transactions.filter (fun tx => tx.isin = key ∧ tx.type = "BUY")).map
          (fun tx => tx.units)).sum -
        ((r.transactions.filter (fun tx => tx.isin = key ∧ tx.type = "SELL")).map
          (fun tx => tx.units)).sum) ∧
    (∀ (r : MFResult) (agg : SchemeAgg),
      processMFTransactions
          (some
            { mfTransactions :=
                some [{ isin := some "I1", folioId := some "F1", schemeName := some "S1",
                        txns := some [{ orderType := 1, date := "d1", nav := 10, units := 100,
                                        amount := 1000 },
                                      { orderType := 2, date := "d2", nav := 12, units := 40,
                                        amount := 500 }] }] }) = Except.ok r →
      assocFind (some "I1") r.schemes = some agg →
      agg.totalUnits = 60 ∧ agg.totalInvested = 500) := by
  refine ⟨?_, ?_, ?_⟩
  · intro s t
    rfl
  · intro resp r key agg hok hfind
    cases resp with
    | none =>
      cases hok
      simp [assocFind] at hfind
    | some p =>
      cases hmt : p.mfTransactions with
      | none =>
        simp only [processMFTransactions, hmt] at hok
        cases hok
        simp [assocFind] at hfind
      | some l =>
        cases hfl : flattenMF l with
        | error e =>
          simp only [processMFTransactions, hmt, hfl] at hok
          exact absurd hok (by simp)
        | ok txs =>
          simp only [processMFTransactions, hmt, hfl] at hok
          cases hok
          have htypes := flattenMF_types l txs hfl
          have hinv := mfFold_invariant txs [] [] htypes
            (fun key2 _ => rfl)
            (fun key2 agg2 h => by simp [assocFind] at h)
          have hres := hinv.2 key agg (by simpa using hfind)
          constructor
          · simpa using hres.1
          · simpa using hres.2
  · intro r agg h1 h2
    obtain rfl := (Except.ok.inj h1).symm
    obtain rfl := (Option.some.inj h2).symm
    constructor
    · show (0 : ℚ) + 100 - 40 = 60
      norm_num
    · show (0 : ℚ) + 1000 - 500 = 500
      norm_num

/-- C7 witness: the aggregate invariant applied to the concrete
single-scheme payload with one `BUY` and one `SELL` tuple. -/
theorem mf_aggregate_invariant_witness :
    ({ isin := some "I1", schemeName := some "S1",
       transactions := [{ isin := some "I1", folioId := some "F1", type := "BUY", date := "d1",
                          amount := 1000, units := 100, nav := 10, schemeName := some "S1" },
                        { isin := some "I1", folioId := some "F1", type := "SELL", date := "d2",
                          amount := 500, units := 40, nav := 12, schemeName := some "S1" }],
       totalInvested := 0 + 1000 - 500, totalUnits := 0 + 100 - 40 } : SchemeAgg).totalInvested =
      ((([{ isin := some "I1", folioId := some "F1", type := "BUY", date := "d1",
            amount := 1000, units := 100, nav := 10, schemeName := some "S1" },
          { isin := some "I1", folioId := some "F1", type := "SELL", date := "d2",
            amount := 500, units := 40, nav := 12,
            schemeName := some "S1" }] : List MFTransaction).filter
          (fun tx => tx.isin = some "I1" ∧ tx.type = "BUY")).map (fun tx => tx.amount)).sum -
      ((([{ isin := some "I1", folioId := some "F1", type := "BUY", date := "d1",
            amount := 1000, units := 100, nav := 10, schemeName := some "S1" },
          { isin := some "I1", folioId := some "F1", type := "SELL", date := "d2",
            amount := 500, units := 40, nav := 12,
            schemeName := some "S1" }] : List MFTransaction).filter
          (fun tx => tx.isin = some "I1" ∧ tx.type = "SELL")).map (fun tx => tx.amount)).sum ∧
    ({ isin := some "I1", schemeName := some "S1",
       transactions := [{ isin := some "I1", folioId := some "F1", type := "BUY", date := "d1",
                          amount := 1000, units := 100, nav := 10, schemeName := some "S1" },
                        { isin := some "I1", folioId := some "F1", type := "SELL", date := "d2",
                          amount := 500, units := 40, nav := 12,
                          schemeName := some "S1" }],
       totalInvested := 0 + 1000 - 500, totalUnits := 0 + 100 - 40 } : SchemeAgg).totalUnits =
      ((([{ isin := some "I1", folioId := some "F1", type := "BUY", date := "d1",
            amount := 1000, units := 100, nav := 10, schemeName := some "S1" },
          { isin := some "I1", folioId := some "F1", type := "SELL", date := "d2",
            amount := 500, units := 40, nav := 12,
            schemeName := some "S1" }] : List MFTransaction).filter
          (fun tx => tx.isin = some "I1" ∧ tx.type = "BUY")).map (fun tx => tx.units)).sum -
      ((([{ isin := some "I1", folioId := some "F1", type := "BUY", date := "d1",
            amount := 1000, units := 100, nav := 10, schemeName := some "S1" },
          { isin := some "I1", folioId := some "F1", type := "SELL", date := "d2",
            amount := 500, units := 40, nav := 12,
            schemeName := some "S1" }] : List MFTransaction).filter
          (fun tx => tx.isin = some "I1" ∧ tx.type = "SELL")).map (fun tx => tx.units)).sum :=
  mf_aggregate_invariant.2.1
    (some
      { mfTransactions :=
          some [{ isin := some "I1", folioId := some "F1", schemeName := some "S1",
                  txns := some [{ orderType := 1, date := "d1", nav := 10, units := 100,
                                  amount := 1000 },
                                { orderType := 2, date := "d2", nav := 12, units := 40,
                                  amount := 500 }] }] })
    { transactions := [{ isin := some "I1", folioId := some "F1", type := "BUY", date := "d1",
                         amount := 1000, units := 100, nav := 10, schemeName := some "S1" },
                       { isin := some "I1", folioId := some "F1", type := "SELL", date := "d2",
                         amount := 500, units := 40, nav := 12, schemeName := some "S1" }],
      schemes := [(some "I1",
        { isin := some "I1", schemeName := some "S1",
          transactions := [{ isin := some "I1", folioId := some "F1", type := "BUY",
                             date := "d1", amount := 1000, units := 100, nav := 10,
                             schemeName := some "S1" },
                           { isin := some "I1", folioId := some "F1", type := "SELL",
                             date := "d2", amount := 500, units := 40, nav := 12,
                             schemeName := some "S1" }],
          totalInvested := 0 + 1000 - 500, totalUnits := 0 + 100 - 40 })],
      totalTransactions := 2, error := none }
    (some "I1")
    { isin := some "I1", schemeName := some "S1",
      transactions := [{ isin := some "I1", folioId := some "F1", type := "BUY", date := "d1",
                         amount := 1000, units := 100, nav := 10, schemeName := some "S1" },
                       { isin := some "I1", folioId := some "F1", type := "SELL", date := "d2",
                         amount := 500, units := 40, nav := 12, schemeName := some "S1" }],
      totalInvested := 0 + 1000 - 500, totalUnits := 0 + 100 - 40 }
    rfl rfl

/-- A left fold accumulating `f` over a list is the sum of the mapped
list. -/
theorem foldl_add_eq_sum {α : Type} (f : α → ℚ) :
    ∀ (l : List α) (a : ℚ), l.foldl (fun s x => s + f x) a = a + (l.map f).sum := by
  intro l
  induction l with
  | nil =>
    intro a
    simp
  | cons x xs ih =>
    intro a
    simp [ih, add_assoc]

/-- C8: for every retirement-fund payload with a non-empty `uanAccounts`
list (whose first account carries `rawDetails`, so the normalizer returns),
the returned `employerShare` is the sum over all establishment records of
each record's employer-share balance, a record lacking the balance
contributing 0; with zero establishment records it is 0, and with `n`
records each contributing `k` it is `n * k`. -/
theorem epf_employerShare_sum :
    ∀ (p : EPFPayload) (a : UanAccount) (rest : List UanAccount) (d : RawDetails)
      (r : EPFResult),
      p.uanAccounts = some (a :: rest) → a.rawDetails = some d →
      processEPFData (some p) = Except.ok r →
      r.employerShare = ((d.est_details.getD []).map estEmployerShare).sum ∧
      (d.est_details = some [] → r.employerShare = 0) ∧
      (∀ (n : ℕ) (k : ℚ) (est : EstDetail), estEmployerShare est = k →
        d.est_details = some (List.replicate n est) → r.employerShare = n * k) := by
  intro p a rest d r hua hrd hok
  simp only [processEPFData, hua, hrd] at hok
  cases hok
  refine ⟨?_, ?_, ?_⟩
  · show (d.est_details.getD []).foldl (fun sum est => sum + estEmployerShare est) 0 =
      ((d.est_details.getD []).map estEmployerShare).sum
    rw [foldl_add_eq_sum]
    simp
  · intro h
    show (d.est_details.getD []).foldl (fun sum est => sum + estEmployerShare est) 0 = 0
    rw [h]
    simp
  · intro n k est hk hrep
    show (d.est_details.getD []).foldl (fun sum est => sum + estEmployerShare est) 0 = n * k
    rw [hrep, Option.getD_some, foldl_add_eq_sum]
    simp [List.map_replicate, List.sum_replicate, hk, nsmul_eq_mul]

/-- C8 witness: the employer-share sum evaluated on a concrete payload with
two establishment records each contributing 100. -/
theorem epf_employerShare_sum_witness :
    ({ totalBalance := 0, employeeShare := 0, employerShare := 0 + 100 + 100,
       pensionBalance := 0,
       employerDetails := [{ pf_balance := some { employer_share := some { balance := some 100 } } },
                           { pf_balance := some { employer_share := some { balance := some 100 } } }],
       error := none } : EPFResult).employerShare = (2 : ℕ) * (100 : ℚ) :=
  (epf_employerShare_sum
    { uanAccounts :=
        some [{ rawDetails :=
                  some { overall_pf_balance := none,
                         est_details :=
                           some [{ pf_balance :=
                                     some { employer_share := some { balance := some 100 } } },
                                 { pf_balance :=
                                     some { employer_share := some { balance := some 100 } } }] } }] }
    { rawDetails :=
        some { overall_pf_balance := none,
               est_details :=
                 some [{ pf_balance := some { employer_share := some { balance := some 100 } } },
                       { pf_balance := some { employer_share := some { balance := some 100 } } }] } }
    []
    { overall_pf_balance := none,
      est_details :=
        some [{ pf_balance := some { employer_share := some { balance := some 100 } } },
              { pf_balance := some { employer_share := some { balance := some 100 } } }] }
    { totalBalance := 0, employeeShare := 0, employerShare := 0 + 100 + 100, pensionBalance := 0,
      employerDetails := [{ pf_balance := some { employer_share := some { balance := some 100 } } },
                          { pf_balance := some { employer_share := some { balance := some 100 } } }],
      error := none }
    rfl rfl rfl).2.2 2 100
    { pf_balance := some { employer_share := some { balance := some 100 } } } rfl rfl

